import Mathlib

/-!
Shallow embedding of the bizip frontend search/profile/report logic.

Sources:
* `src/unnamed/part_000` — component stylesheet (no logic).
* `src/unnamed/part_001` — `SearchComponent`: search submit handlers,
  result transformers, row expansion, status rendering, report rendering.
* `src/frontend/src/FinancialStatements.js` — the financial-statement
  presenter.

JavaScript string primitives (`trim`, `split('\n')`, `startsWith`,
`toLowerCase`, `includes`) are embedded as structural functions over the
character list of a `String`, because the corresponding core-library
`String` functions do not reduce inside the kernel.  JavaScript `x || d`
fallbacks on string-valued fields are embedded by `jsOr` / `orNull` /
`jsTruthy` (the empty string is falsy); absent JSON fields are `none`.
-/

namespace BizIP

/-- JS string truthiness fallback `x || d` for an optional string value:
absent and empty-string values fall back to the default `d`. -/
def jsOr (v : Option String) (d : String) : String :=
  match v with
  | none => d
  | some s => if s = "" then d else s

/-- JS `x || null` for an optional string value: absent and empty-string
values become `null` (`none`); any other string is kept. -/
def orNull (v : Option String) : Option String :=
  match v with
  | none => none
  | some s => if s = "" then none else some s

/-- JS truthiness of an optional string value: `false` exactly for absent
values and the empty string. -/
def jsTruthy (v : Option String) : Bool :=
  match v with
  | none => false
  | some s => decide (s ≠ "")

/-- Character-level embedding of `String.prototype.trim`: drop whitespace
from both ends of the character list. -/
def jsTrimList (s : List Char) : List Char :=
  ((s.dropWhile Char.isWhitespace).reverse.dropWhile Char.isWhitespace).reverse

/-- Embedding of JS `s.trim()`. -/
def jsTrim (s : String) : String :=
  ⟨jsTrimList s.data⟩

/-- Split a character list at every occurrence of the separator character,
keeping empty segments, like JS `s.split(sep)` for a one-character
separator.  `acc` holds the (reversed) current segment. -/
def splitOnCharAux (sep : Char) : List Char → List Char → List (List Char)
  | [], acc => [acc.reverse]
  | c :: cs, acc =>
      if c = sep then acc.reverse :: splitOnCharAux sep cs []
      else splitOnCharAux sep cs (c :: acc)

/-- Embedding of JS `s.split('\n')`: the list of lines of `s`. -/
def jsSplitNewlines (s : String) : List String :=
  (splitOnCharAux '\n' s.data []).map String.mk

/-- Embedding of JS `s.startsWith(c)` for a one-character prefix. -/
def jsStartsWithChar (s : String) (c : Char) : Bool :=
  match s.data with
  | [] => false
  | c₀ :: _ => decide (c₀ = c)

/-- ASCII lower-casing of one character (enough for the status keyword
test, whose keywords are ASCII). -/
def charLower (c : Char) : Char :=
  if 'A' ≤ c ∧ c ≤ 'Z' then Char.ofNat (c.toNat + 32) else c

/-- Embedding of JS `s.toLowerCase()` (ASCII). -/
def jsToLower (s : String) : String :=
  ⟨s.data.map charLower⟩

/-- Embedding of JS `s.includes(sub)` on character lists. -/
def listContainsSub : List Char → List Char → Bool
  | [], sub => sub.isEmpty
  | c :: rest, sub => sub.isPrefixOf (c :: rest) || listContainsSub rest sub

/-- Embedding of JS `s.includes(sub)`. -/
def jsIncludes (s sub : String) : Bool :=
  listContainsSub s.data sub.data

/-- One entry of a company's `recent_news` array
(`src/unnamed/part_001`, line 349: `title`, `date`, `source`). -/
structure NewsItem where
  title : String
  date : String
  source : String
deriving DecidableEq

/-- The `edgar_data.financial_statements` fields consumed by the
financial-statement presenter (`FinancialStatements.js`, lines 28-112). -/
structure FinancialFiling where
  revenue : Option String := none
  net_income : Option String := none
  total_assets : Option String := none
  total_liabilities : Option String := none
  debt : Option String := none
  cash_and_equivalents : Option String := none
  filing_date : Option String := none
deriving DecidableEq

/-- The `edgar_data` object attached to a company entry
(`FinancialStatements.js`, line 24). -/
structure EdgarData where
  financial_statements : FinancialFiling
deriving DecidableEq

/-- A raw company entry of the search response's `companies[]` array;
exactly the fields read by `handleCompanySearch`
(`src/unnamed/part_001`, lines 54-89).  Absent JSON fields are `none`. -/
structure CompanyInput where
  name : String
  linkedin_url : Option String := none
  industry : Option String := none
  estimated_revenue : Option String := none
  employee_count : Option String := none
  recent_news : Option (List NewsItem) := none
  data_sources : Option (List String) := none
  edgar_data : Option EdgarData := none
  edgar_status : Option String := none
  linkedin_status : Option String := none
  companyresearch_status : Option String := none
  ceo : Option String := none
  ticker : Option String := none
deriving DecidableEq

/-- A raw individual entry of the search response's `individuals[]` array
(`src/unnamed/part_001`, lines 134-163).  `linkedin_note` is a field the
response may carry; the transformer never reads it (the rendered
`result.linkedin_note` of line 303 is always absent on transformed
records). -/
structure IndividualInput where
  name : String
  title : Option String := none
  company : Option String := none
  estimated_net_worth : Option String := none
  linkedin_url : Option String := none
  data_sources : Option (List String) := none
  linkedin_note : Option String := none
deriving DecidableEq

/-- The nested `company_info` object of a display record. -/
structure CompanyInfo where
  industry : String
  revenue : String
  employees : String
deriving DecidableEq

/-- The normalized display record pushed onto `transformedResults` by the
two search handlers (`src/unnamed/part_001`, lines 55-89 and 135-163).
Fields never set by a handler are `none` (JS `undefined`). -/
structure DisplayRecord where
  name : String
  title : String
  company : String
  estimated_net_worth : String
  linkedin_url : String
  company_info : CompanyInfo
  financial_opportunities : List String
  conversation_starters : List String
  planning_needs : List String
  recent_news : List NewsItem
  data_sources : List String
  edgar_data : Option EdgarData
  edgar_status : Option String
  linkedin_status : Option String
  companyresearch_status : Option String
  ceo_name : Option String
  ticker : Option String
  linkedin_note : Option String
deriving DecidableEq

/-- The record built for one company entry by `handleCompanySearch`
(`src/unnamed/part_001`, lines 55-89). -/
def transformCompany (company : CompanyInput) : DisplayRecord where
  name := company.name
  title := "Company"
  company := company.name
  estimated_net_worth := "Company Data Available"
  linkedin_url := jsOr company.linkedin_url "#"
  company_info :=
    { industry := jsOr company.industry "Unknown"
      revenue := jsOr company.estimated_revenue "Unknown"
      employees := jsOr company.employee_count "Unknown" }
  financial_opportunities :=
    ["Business Succession Planning", "Tax Optimization", "Employee Benefit Plans"]
  conversation_starters :=
    ["Recent company developments", "Industry trends and market position",
     "Technology investments and innovation"]
  planning_needs := ["Estate Planning", "Retirement Planning", "Risk Management"]
  recent_news := company.recent_news.getD []
  data_sources := company.data_sources.getD []
  edgar_data := company.edgar_data
  edgar_status := orNull company.edgar_status
  linkedin_status := orNull company.linkedin_status
  companyresearch_status := orNull company.companyresearch_status
  ceo_name := orNull company.ceo
  ticker := orNull company.ticker
  linkedin_note := none

/-- The record built for one individual entry by `handlePersonSearch`
(`src/unnamed/part_001`, lines 135-163). -/
def transformIndividual (individual : IndividualInput) : DisplayRecord where
  name := individual.name
  title := jsOr individual.title "Business Executive"
  company := jsOr individual.company "Various"
  estimated_net_worth := jsOr individual.estimated_net_worth "Confidential"
  linkedin_url := jsOr individual.linkedin_url "#"
  company_info := { industry := "Technology", revenue := "Confidential", employees := "N/A" }
  financial_opportunities :=
    ["Personal Wealth Management", "Tax Planning", "Investment Advisory"]
  conversation_starters :=
    ["Recent business developments", "Industry leadership insights",
     "Strategic planning opportunities"]
  planning_needs := ["Estate Planning", "Retirement Planning", "Risk Management"]
  recent_news := []
  data_sources := individual.data_sources.getD []
  edgar_data := none
  edgar_status := none
  linkedin_status := none
  companyresearch_status := none
  ceo_name := none
  ticker := none
  linkedin_note := none

/-- The result list produced by the `response.ok` branch of
`handleCompanySearch` (`src/unnamed/part_001`, lines 51-93): the guard
`data.companies && data.companies.length > 0` skips the transform when the
array is absent or empty, leaving the freshly created empty list. -/
def companySuccessResults (companies : Option (List CompanyInput)) : List DisplayRecord :=
  match companies with
  | none => []
  | some cs => if cs.length > 0 then cs.map transformCompany else []

/-- The result list produced by the `response.ok` branch of
`handlePersonSearch` (`src/unnamed/part_001`, lines 131-167). -/
def personSuccessResults (individuals : Option (List IndividualInput)) : List DisplayRecord :=
  match individuals with
  | none => []
  | some is => if is.length > 0 then is.map transformIndividual else []

/-- `getCEOName` (`src/unnamed/part_001`, lines 189-198) applied to a
transformed record: returns `ceo_name` when truthy, else the fallback
`'Unknown'`.  (The source also probes `result.executives`, a field no
transformed record carries — JS `undefined` — so that branch never
fires for records produced by the transformers.) -/
def getCEOName (result : DisplayRecord) : String :=
  match result.ceo_name with
  | some s => if s = "" then "Unknown" else s
  | none => "Unknown"

/-- The failure-keyword test of `renderStatusMessage`
(`src/unnamed/part_001`, lines 204-207): the lower-cased status contains
one of `error`, `failed`, `not found`, `forbidden`. -/
def isErrorStatus (status : String) : Bool :=
  jsIncludes (jsToLower status) "error" ||
  jsIncludes (jsToLower status) "failed" ||
  jsIncludes (jsToLower status) "not found" ||
  jsIncludes (jsToLower status) "forbidden"

/-- The banner produced by `renderStatusMessage` for one status. -/
structure StatusMessage where
  isError : Bool
  icon : String
  source : String
  text : String
deriving DecidableEq

/-- `renderStatusMessage` (`src/unnamed/part_001`, lines 201-217): falsy
status renders nothing; otherwise a banner styled `error` or `warning`
by the keyword test. -/
def renderStatusMessage (status : Option String) (source : String) : Option StatusMessage :=
  match status with
  | none => none
  | some s =>
      if s = "" then none
      else some
        { isError := isErrorStatus s
          icon := if isErrorStatus s then "⚠️" else "ℹ️"
          source := source
          text := s }

/-- The `hasErrors` flag computed per company row
(`src/unnamed/part_001`, line 225):
`result.edgar_status || result.linkedin_status || result.companyresearch_status`. -/
def hasErrors (result : DisplayRecord) : Bool :=
  jsTruthy result.edgar_status || jsTruthy result.linkedin_status ||
    jsTruthy result.companyresearch_status

/-- The visible per-row data of one compact company row
(`src/unnamed/part_001`, lines 227-240). -/
structure CompanyRow where
  name : String
  ticker : Option String
  ceoShown : String
  isExpanded : Bool
  showsErrorIndicator : Bool
deriving DecidableEq

/-- One company row as rendered by `renderCompanyRows` for the pair of a
filtered row index and its record. -/
def companyRowOf (expandedCompanyIndex : Option Nat) (p : Nat × DisplayRecord) : CompanyRow where
  name := p.2.name
  ticker := p.2.ticker
  ceoShown := getCEOName p.2
  isExpanded := decide (expandedCompanyIndex = some p.1)
  showsErrorIndicator := hasErrors p.2

/-- `renderCompanyRows` (`src/unnamed/part_001`, lines 220-240): filter the
results to `title === 'Company'`, then render one row per entry; the row
at (filtered) index `i` is expanded iff `expandedCompanyIndex === i`, and
shows the `⚠️` indicator iff `hasErrors` is truthy. -/
def renderCompanyRows (companyResults : List DisplayRecord)
    (expandedCompanyIndex : Option Nat) : List CompanyRow :=
  ((companyResults.filter (fun r => decide (r.title = "Company"))).enum).map
    (companyRowOf expandedCompanyIndex)

/-- The row `onClick` handler (`src/unnamed/part_001`, line 231):
`setExpandedCompanyIndex(isExpanded ? null : index)` where
`isExpanded = expandedCompanyIndex === index`. -/
def toggleExpandedIndex (expandedCompanyIndex : Option Nat) (index : Nat) : Option Nat :=
  if expandedCompanyIndex = some index then none else some index

/-- A search POST request as assembled by the submit handlers
(`src/unnamed/part_001`, lines 34-46 and 114-126): fixed URL, the query
text exactly as typed (untrimmed), and the lane's `search_type`. -/
structure SearchRequest where
  url : String
  query : String
  search_type : String
deriving DecidableEq

/-- The synchronous outcome of a submit: the single request issued (if
any) and the validation error set (if any). -/
structure SubmitOutcome where
  request : Option SearchRequest
  validationError : Option String
deriving DecidableEq

/-- The synchronous guard of `handleCompanySearch`
(`src/unnamed/part_001`, lines 24-46): `!companyQuery.trim()` rejects the
submit with a local validation error and no request; otherwise exactly
one POST is issued with the untrimmed query. -/
def handleCompanySearchSubmit (companyQuery : String) : SubmitOutcome :=
  if jsTrim companyQuery = "" then
    { request := none, validationError := some "Please enter a company name" }
  else
    { request := some
        { url := "http://127.0.0.1:5000/api/opportunities/search"
          query := companyQuery
          search_type := "company" }
      validationError := none }

/-- The synchronous guard of `handlePersonSearch`
(`src/unnamed/part_001`, lines 104-126). -/
def handlePersonSearchSubmit (personQuery : String) : SubmitOutcome :=
  if jsTrim personQuery = "" then
    { request := none, validationError := some "Please enter a person name" }
  else
    { request := some
        { url := "http://127.0.0.1:5000/api/opportunities/search"
          query := personQuery
          search_type := "person" }
      validationError := none }

/-- The company-search lane of the component state
(`src/unnamed/part_001`, lines 8-16). -/
structure UIState where
  companyResults : List DisplayRecord
  companyLoading : Bool
  companyError : String
  expandedCompanyIndex : Option Nat
deriving DecidableEq

/-- The component's initial state (`useState` initializers,
`src/unnamed/part_001`, lines 8-16). -/
def initialUIState : UIState where
  companyResults := []
  companyLoading := false
  companyError := ""
  expandedCompanyIndex := none

/-- Events of the company-search lane.  A `submit` is the synchronous part
of `handleCompanySearch`; a `responseOk` / `responseErr` is the callback
run when a (2xx / non-2xx) response arrives.  The code attaches no
sequence tag to a request, so a response event carries only its payload
and is processed identically whenever it arrives.  (Rapid double submits
are reachable through the Enter-key path, `handleKeyDown`, lines 178-186,
which has no loading guard.) -/
inductive CompanyEvent where
  | submit (query : String)
  | responseOk (companies : Option (List CompanyInput))
  | responseErr (error : Option String)
deriving DecidableEq

/-- One transition of the company-search lane (`handleCompanySearch`,
`src/unnamed/part_001`, lines 24-102): a submit either sets the
validation error (empty trimmed query) or enters loading and clears the
error; an arriving 2xx response unconditionally replaces the results; a
non-2xx response sets the server-supplied error or its fallback.  No
branch touches `expandedCompanyIndex`. -/
def companySearchStep (st : UIState) (e : CompanyEvent) : UIState :=
  match e with
  | .submit q =>
      if jsTrim q = "" then { st with companyError := "Please enter a company name" }
      else { st with companyLoading := true, companyError := "" }
  | .responseOk companies =>
      { st with companyResults := companySuccessResults companies, companyLoading := false }
  | .responseErr error =>
      { st with companyError := jsOr error "Company search failed", companyLoading := false }

/-- A run of the company-search lane: fold the step over the events in
the order they are processed (submits in user order, responses in
arrival order). -/
def companyRun (st : UIState) (events : List CompanyEvent) : UIState :=
  events.foldl companySearchStep st

/-- The four statement tabs of the financial presenter
(`FinancialStatements.js`, lines 115-148). -/
inductive Tab where
  | income
  | balance
  | cashflow
  | equity
deriving DecidableEq

/-- The tab shown first (`useState('income')`,
`FinancialStatements.js`, line 5). -/
def initialActiveTab : Tab := Tab.income

/-- One tab button: its tab, label, and whether it carries the `active`
class (`activeTab === ...`). -/
structure TabButton where
  tab : Tab
  label : String
  active : Bool
deriving DecidableEq

/-- One row of a rendered financial table (`item` / `value` cells). -/
structure TableRow where
  item : String
  value : String
deriving DecidableEq

/-- `incomeStatementData` (`FinancialStatements.js`, lines 27-36). -/
def incomeStatementData (financialData : FinancialFiling) : List TableRow :=
  [⟨"Revenue", jsOr financialData.revenue "N/A"⟩,
   ⟨"Cost of Revenue", "N/A"⟩,
   ⟨"Gross Profit", "N/A"⟩,
   ⟨"Operating Expenses", "N/A"⟩,
   ⟨"Operating Income", "N/A"⟩,
   ⟨"Interest Expense", "N/A"⟩,
   ⟨"Income Tax Expense", "N/A"⟩,
   ⟨"Net Income", jsOr financialData.net_income "N/A"⟩]

/-- `balanceSheetData` (`FinancialStatements.js`, lines 39-54). -/
def balanceSheetData (financialData : FinancialFiling) : List TableRow :=
  [⟨"Cash and Cash Equivalents", jsOr financialData.cash_and_equivalents "N/A"⟩,
   ⟨"Short-term Investments", "N/A"⟩,
   ⟨"Accounts Receivable", "N/A"⟩,
   ⟨"Inventory", "N/A"⟩,
   ⟨"Total Current Assets", "N/A"⟩,
   ⟨"Property, Plant & Equipment", "N/A"⟩,
   ⟨"Intangible Assets", "N/A"⟩,
   ⟨"Total Assets", jsOr financialData.total_assets "N/A"⟩,
   ⟨"Accounts Payable", "N/A"⟩,
   ⟨"Short-term Debt", "N/A"⟩,
   ⟨"Total Current Liabilities", "N/A"⟩,
   ⟨"Long-term Debt", jsOr financialData.debt "N/A"⟩,
   ⟨"Total Liabilities", jsOr financialData.total_liabilities "N/A"⟩,
   ⟨"Total Shareholders\x27 Equity", "N/A"⟩]

/-- `cashFlowData` (`FinancialStatements.js`, lines 57-68). -/
def cashFlowData (financialData : FinancialFiling) : List TableRow :=
  [⟨"Net Income", jsOr financialData.net_income "N/A"⟩,
   ⟨"Depreciation & Amortization", "N/A"⟩,
   ⟨"Changes in Working Capital", "N/A"⟩,
   ⟨"Operating Cash Flow", "N/A"⟩,
   ⟨"Capital Expenditures", "N/A"⟩,
   ⟨"Investing Cash Flow", "N/A"⟩,
   ⟨"Debt Issuance/Repayment", "N/A"⟩,
   ⟨"Dividends Paid", "N/A"⟩,
   ⟨"Financing Cash Flow", "N/A"⟩,
   ⟨"Net Change in Cash", "N/A"⟩]

/-- `equityData` (`FinancialStatements.js`, lines 71-78). -/
def equityData (_financialData : FinancialFiling) : List TableRow :=
  [⟨"Common Stock", "N/A"⟩,
   ⟨"Additional Paid-in Capital", "N/A"⟩,
   ⟨"Retained Earnings", "N/A"⟩,
   ⟨"Treasury Stock", "N/A"⟩,
   ⟨"Accumulated Other Comprehensive Income", "N/A"⟩,
   ⟨"Total Shareholders\x27 Equity", "N/A"⟩]

/-- The table shown for the active tab (`FinancialStatements.js`,
lines 143-148). -/
def tabContent (financialData : FinancialFiling) : Tab → List TableRow
  | .income => incomeStatementData financialData
  | .balance => balanceSheetData financialData
  | .cashflow => cashFlowData financialData
  | .equity => equityData financialData

/-- What the `FinancialStatements` component renders: either the distinct
no-data branch or the tabbed statement view. -/
inductive FinancialView where
  | noData (companyName : String)
  | statements (companyName : String) (filingDate : String)
      (tabs : List TabButton) (content : List TableRow)
deriving DecidableEq

/-- Whether a view is the no-data branch. -/
def FinancialView.isNoData : FinancialView → Bool
  | .noData _ => true
  | .statements _ _ _ _ => false

/-- The `FinancialStatements` component (`FinancialStatements.js`):
`!company || !company.edgar_data` renders the no-data branch
(lines 7-22, heading name `company?.name || 'Company'`); otherwise the
four tab buttons — the `active` class on the button whose tab equals
`activeTab` — and the active tab's table (lines 102-149). -/
def FinancialStatementsView (company : Option DisplayRecord) (activeTab : Tab) : FinancialView :=
  match company with
  | none => .noData "Company"
  | some c =>
      match c.edgar_data with
      | none => .noData (if c.name = "" then "Company" else c.name)
      | some ed =>
          let financialData := ed.financial_statements
          .statements c.name (jsOr financialData.filing_date "N/A")
            [⟨Tab.income, "Income Statement", decide (activeTab = Tab.income)⟩,
             ⟨Tab.balance, "Balance Sheet", decide (activeTab = Tab.balance)⟩,
             ⟨Tab.cashflow, "Cash Flow Statement", decide (activeTab = Tab.cashflow)⟩,
             ⟨Tab.equity, "Shareholders\x27 Equity", decide (activeTab = Tab.equity)⟩]
            (tabContent financialData activeTab)

/-- One rendered line of the report modal's `llm_response`. -/
inductive ReportLine where
  | bullet (text : String)
  | para (text : String)
deriving DecidableEq

/-- The per-line branch of `renderReport` (`src/unnamed/part_001`,
lines 500-506): a line whose trim is empty renders nothing; a line
starting with `•` renders as a list item; any other line as a
paragraph. -/
def classifyReportLine (line : String) : Option ReportLine :=
  if jsTrim line = "" then none
  else if jsStartsWithChar line '•' then some (.bullet line)
  else some (.para line)

/-- The rendered body of the report modal (`src/unnamed/part_001`,
lines 500-506): `llm_response.split('\n').map(...)` with the `null`
entries (blank lines) dropped by the renderer. -/
def renderLlmResponse (llm_response : String) : List ReportLine :=
  ((jsSplitNewlines llm_response).map classifyReportLine).reduceOption

/-- Concrete company entry of the C1 scenario: payload of the logically
earlier (slower) request. -/
def oldCorp : CompanyInput := { name := "Old Corp" }

/-- Concrete company entry of the C1 scenario: payload of the logically
later (faster) request. -/
def newCorp : CompanyInput := { name := "New Corp" }

/-- The out-of-order run of the C1 scenario: two rapid submits, then the
second request's response arrives first and the first request's stale
response arrives last. -/
def staleRaceEvents : List CompanyEvent :=
  [.submit "Acme", .submit "Acme",
   .responseOk (some [newCorp]), .responseOk (some [oldCorp])]

/-- Concrete pre-state of the C2 scenario: three company results with row
index 2 expanded. -/
def threeExpandedState : UIState where
  companyResults := companySuccessResults (some [{ name := "A" }, { name := "B" }, { name := "C" }])
  companyLoading := false
  companyError := ""
  expandedCompanyIndex := some 2

/-- The company entry of the C3 scenario mock response. -/
def acmeCorp : CompanyInput := { name := "Acme Corp", ticker := some "ACM" }

/-- C4 scenario: an individual entry carrying `estimated_net_worth`. -/
def janeWithNetWorth : IndividualInput :=
  { name := "Jane Doe", estimated_net_worth := some "$10M" }

/-- C4 scenario: the same individual entry with `estimated_net_worth`
absent (all other fields identical). -/
def janeWithoutNetWorth : IndividualInput := { name := "Jane Doe" }

/-- A company entry with every optional field absent (C5 witness). -/
def blankCompany : CompanyInput := { name := "Blank Co" }

/-- An individual entry with every optional field absent (C5 witness). -/
def blankIndividual : IndividualInput := { name := "Blank Person" }

/-- A concrete filing with only `revenue` populated (C7 witness). -/
def sampleFiling : FinancialFiling := { revenue := some "$1B" }

/-- A record with filing data present (C7 witness). -/
def sampleFilingRecord : DisplayRecord :=
  transformCompany
    { name := "Acme Corp"
      edgar_data := some { financial_statements := sampleFiling } }

/-- The tab-button list rendered for `sampleFilingRecord` at the default
active tab (C7 witness). -/
def sampleTabs : List TabButton :=
  [⟨Tab.income, "Income Statement", true⟩,
   ⟨Tab.balance, "Balance Sheet", false⟩,
   ⟨Tab.cashflow, "Cash Flow Statement", false⟩,
   ⟨Tab.equity, "Shareholders\x27 Equity", false⟩]

/-- A company entry whose only status is a warning-classified string
(C10): `"LinkedIn data unavailable"` contains none of the failure
keywords. -/
def warningOnlyCompany : CompanyInput :=
  { name := "Acme Corp", linkedin_status := some "LinkedIn data unavailable" }

/-- `x || null` yields a truthy value exactly when it yields a non-null
one: the empty string has already been collapsed to `none`. -/
theorem jsTruthy_orNull (v : Option String) :
    jsTruthy (orNull v) = true ↔ orNull v ≠ none := by
  cases v with
  | none => simp [orNull, jsTruthy]
  | some s => by_cases h : s = "" <;> simp [orNull, jsTruthy, h]

/-- The expansion flag of a rendered row is the index comparison of the
source's `expandedCompanyIndex === index`. -/
theorem companyRowOf_isExpanded (eIdx : Option Nat) (p : Nat × DisplayRecord) :
    (companyRowOf eIdx p).isExpanded = decide (eIdx = some p.1) := rfl

/-- Rows rendered for positions at or above `n` are never expanded when
the stored index `k` lies below `n`. -/
theorem notExpanded_of_lt :
    ∀ (L : List DisplayRecord) (n k : Nat), k < n →
      ∀ row ∈ (L.enumFrom n).map (companyRowOf (some k)), row.isExpanded = false := by
  intro L
  induction L with
  | nil => intro n k _ row hrow; simp [List.enumFrom] at hrow
  | cons x xs ih =>
      intro n k hk row hrow
      simp only [List.enumFrom, List.map_cons, List.mem_cons] at hrow
      rcases hrow with h | h
      · subst h
        simp only [companyRowOf, decide_eq_false_iff_not, Option.some.injEq]
        omega
      · exact ih (n + 1) k (by omega) row h

/-- Rows rendered for positions below `n + L.length` are never expanded
when the stored index `k` lies at or above `n + L.length`. -/
theorem notExpanded_of_ge :
    ∀ (L : List DisplayRecord) (n k : Nat), n + L.length ≤ k →
      ∀ row ∈ (L.enumFrom n).map (companyRowOf (some k)), row.isExpanded = false := by
  intro L
  induction L with
  | nil => intro n k _ row hrow; simp [List.enumFrom] at hrow
  | cons x xs ih =>
      intro n k hk row hrow
      simp only [List.length_cons] at hk
      simp only [List.enumFrom, List.map_cons, List.mem_cons] at hrow
      rcases hrow with h | h
      · subst h
        simp only [companyRowOf, decide_eq_false_iff_not, Option.some.injEq]
        omega
      · exact ih (n + 1) k (by omega) row h

/-- Among the rows rendered from any position list, at most one is
expanded: the stored index matches at most one position. -/
theorem expandedCount_le_one :
    ∀ (L : List DisplayRecord) (n : Nat) (eIdx : Option Nat),
      (((L.enumFrom n).map (companyRowOf eIdx)).filter CompanyRow.isExpanded).length ≤ 1 := by
  intro L
  induction L with
  | nil => intro n eIdx; simp [List.enumFrom]
  | cons x xs ih =>
      intro n eIdx
      simp only [List.enumFrom, List.map_cons, List.filter_cons]
      by_cases hexp : CompanyRow.isExpanded (companyRowOf eIdx (n, x)) = true
      · have heq : eIdx = some n := by
          have h' := hexp
          rw [companyRowOf_isExpanded] at h'
          exact of_decide_eq_true h'
        subst heq
        rw [if_pos hexp]
        have hnil :
            ((xs.enumFrom (n + 1)).map (companyRowOf (some n))).filter
                CompanyRow.isExpanded = [] := by
          rw [List.filter_eq_nil_iff]
          intro row hrow
          have := notExpanded_of_lt xs (n + 1) n (by omega) row hrow
          simp [this]
        simp [hnil]
      · rw [if_neg hexp]
        exact ih (n + 1) eIdx

/-- The blank-line drop and bullet/paragraph classification of the
report renderer, as a filter followed by a map over the split lines. -/
theorem reduceOption_map_classify (L : List String) :
    (L.map classifyReportLine).reduceOption =
      (L.filter (fun line => decide (jsTrim line ≠ ""))).map
        (fun line =>
          if jsStartsWithChar line '•' then ReportLine.bullet line else ReportLine.para line) := by
  induction L with
  | nil => rfl
  | cons x xs ih =>
      by_cases hx : jsTrim x = ""
      · simp [classifyReportLine, hx, ih, List.filter_cons]
      · by_cases hb : jsStartsWithChar x '•' <;>
          simp [classifyReportLine, hx, hb, ih, List.filter_cons]

/-- C1 counterexample: in the two-rapid-submit run where the logically
later request's response (`newCorp`) arrives first and the logically
earlier request's stale response (`oldCorp`) arrives last, the final
visible company-result state is the stale response's transform, which
differs from the logically later one — the claimed staleness guard does
not exist in `handleCompanySearch`. -/
theorem C1_stale_response_clobbers :
    (companyRun initialUIState staleRaceEvents).companyResults =
        companySuccessResults (some [oldCorp])
    ∧ companySuccessResults (some [oldCorp]) ≠ companySuccessResults (some [newCorp]) :=
  ⟨by decide, by decide⟩

/-- C1 (amended): `handleCompanySearch` attaches no sequence tag to a
request, so every arriving 2xx response unconditionally replaces the
company-result state; the final visible state reflects whichever
response arrives last, regardless of which request was logically
later. -/
theorem C1_last_arriving_response_wins (st : UIState) (pre : List CompanyEvent)
    (companies : Option (List CompanyInput)) :
    (companyRun st (pre ++ [CompanyEvent.responseOk companies])).companyResults =
      companySuccessResults companies := by
  simp [companyRun, List.foldl_append, companySearchStep]

/-- C2 counterexample: with row index 2 expanded over three results,
replacing the results with a single-company response leaves the
expansion index at `some 2` — neither cleared nor bounds-checked — while
the new result list has length 1, so the stored index points past the end
of the new list. -/
theorem C2_stale_index_counterexample :
    (companySearchStep threeExpandedState
        (CompanyEvent.responseOk (some [newCorp]))).expandedCompanyIndex = some 2
    ∧ (companySearchStep threeExpandedState
        (CompanyEvent.responseOk (some [newCorp]))).companyResults.length = 1
    ∧ (companySearchStep threeExpandedState
        (CompanyEvent.responseOk (some [newCorp]))).expandedCompanyIndex ≠ none
    ∧ ¬(2 < (companySearchStep threeExpandedState
        (CompanyEvent.responseOk (some [newCorp]))).companyResults.length) :=
  ⟨by decide, by decide, by decide, by decide⟩

/-- C2 (amended): replacing the company results leaves the expansion
index unchanged (it is never cleared or bounds-checked); a stale index at
or past the end of the new filtered row list matches no row, so no row
renders expanded, but the stored index itself may point past the end. -/
theorem C2_index_unchanged_and_stale_expands_no_row :
    (∀ (st : UIState) (companies : Option (List CompanyInput)),
      (companySearchStep st (CompanyEvent.responseOk companies)).expandedCompanyIndex =
        st.expandedCompanyIndex)
    ∧ (∀ (results : List DisplayRecord) (idx : Nat),
        (results.filter (fun r => decide (r.title = "Company"))).length ≤ idx →
        ∀ row ∈ renderCompanyRows results (some idx), row.isExpanded = false) := by
  constructor
  · intro st companies
    rfl
  · intro results idx hidx row hrow
    exact notExpanded_of_ge _ 0 idx (by omega) row hrow

/-- C2 witness: the index survives a concrete results replacement
unchanged, and a concrete out-of-range index (5 over a single row)
expands no row. -/
theorem C2_witness :
    (companySearchStep threeExpandedState
        (CompanyEvent.responseOk (some [newCorp]))).expandedCompanyIndex =
      threeExpandedState.expandedCompanyIndex
    ∧ (companyRowOf (some 5) (0, transformCompany oldCorp)).isExpanded = false :=
  ⟨C2_index_unchanged_and_stale_expands_no_row.1 threeExpandedState (some [newCorp]),
   C2_index_unchanged_and_stale_expands_no_row.2 [transformCompany oldCorp] 5
     (by decide) _ (by decide)⟩

/-- C3 counterexample: for the mock response
`{companies:[{name:"Acme Corp", ticker:"ACM"}]}` the transformer sets the
produced record's `ceo_name` field to `null` (`company.ceo || null` with
`ceo` absent), not to the string `"Unknown"`. -/
theorem C3_ceo_name_is_null :
    (companySuccessResults (some [acmeCorp])).map DisplayRecord.ceo_name = [none]
    ∧ (companySuccessResults (some [acmeCorp])).map DisplayRecord.ceo_name ≠
        [some "Unknown"] :=
  ⟨by decide, by decide⟩

/-- C3 (amended): the mock response yields exactly one record with
`name = "Acme Corp"`, `title = "Company"` and a financial-opportunity
list of length 3; its `ceo_name` field is `null`, and the CEO name
rendered for it by `getCEOName` falls back to `"Unknown"`. -/
theorem C3_acme_scenario :
    (companySuccessResults (some [acmeCorp])).length = 1
    ∧ (companySuccessResults (some [acmeCorp])).map DisplayRecord.name = ["Acme Corp"]
    ∧ (companySuccessResults (some [acmeCorp])).map DisplayRecord.title = ["Company"]
    ∧ (companySuccessResults (some [acmeCorp])).map
        (fun r => r.financial_opportunities.length) = [3]
    ∧ (companySuccessResults (some [acmeCorp])).map DisplayRecord.ceo_name = [none]
    ∧ (companySuccessResults (some [acmeCorp])).map getCEOName = ["Unknown"] := by
  refine ⟨by decide, by decide, by decide, by decide, by decide, by decide⟩

/-- C4 counterexample: two person entries identical except for
`estimated_net_worth` produce different display records — the transformer
reads `individual.estimated_net_worth` (line 139), so the record does
depend on it, contrary to the claim. -/
theorem C4_net_worth_is_used :
    janeWithNetWorth = { janeWithoutNetWorth with estimated_net_worth := some "$10M" }
    ∧ transformIndividual janeWithNetWorth ≠ transformIndividual janeWithoutNetWorth :=
  ⟨by decide, by decide⟩

/-- C4 (amended): the person-result transformer ignores `linkedin_note`
(the produced record does not depend on it), but it does consume
`estimated_net_worth`, copying it into the record with the fallback
`"Confidential"` when absent or empty. -/
theorem C4_ignores_note_uses_net_worth :
    (∀ (individual : IndividualInput) (v : Option String),
      transformIndividual { individual with linkedin_note := v } =
        transformIndividual individual)
    ∧ (∀ individual : IndividualInput,
        (transformIndividual individual).estimated_net_worth =
          jsOr individual.estimated_net_worth "Confidential") :=
  ⟨fun _ _ => rfl, fun _ => rfl⟩

/-- C5: the transformers are total and length-preserving — every
`companies[]` / `individuals[]` array (including the empty one) maps to a
display-record list of equal length — and every absent optional field is
replaced by its documented fallback (`"#"`, `"Unknown"`, the empty list
for companies; `"Business Executive"`, `"Various"`, `"Confidential"`,
`"#"`, the empty list for individuals). -/
theorem C5_transformers_total_and_length_preserving :
    (∀ cs : List CompanyInput, (companySuccessResults (some cs)).length = cs.length)
    ∧ (∀ ps : List IndividualInput, (personSuccessResults (some ps)).length = ps.length)
    ∧ (∀ c : CompanyInput,
        (c.linkedin_url = none → (transformCompany c).linkedin_url = "#")
        ∧ (c.industry = none → (transformCompany c).company_info.industry = "Unknown")
        ∧ (c.estimated_revenue = none →
            (transformCompany c).company_info.revenue = "Unknown")
        ∧ (c.employee_count = none →
            (transformCompany c).company_info.employees = "Unknown")
        ∧ (c.recent_news = none → (transformCompany c).recent_news = [])
        ∧ (c.data_sources = none → (transformCompany c).data_sources = []))
    ∧ (∀ p : IndividualInput,
        (p.title = none → (transformIndividual p).title = "Business Executive")
        ∧ (p.company = none → (transformIndividual p).company = "Various")
        ∧ (p.estimated_net_worth = none →
            (transformIndividual p).estimated_net_worth = "Confidential")
        ∧ (p.linkedin_url = none → (transformIndividual p).linkedin_url = "#")
        ∧ (p.data_sources = none → (transformIndividual p).data_sources = [])) := by
  refine ⟨?_, ?_, ?_, ?_⟩
  · intro cs
    cases cs with
    | nil => rfl
    | cons x xs => simp [companySuccessResults]
  · intro ps
    cases ps with
    | nil => rfl
    | cons x xs => simp [personSuccessResults]
  · intro c
    refine ⟨fun h => ?_, fun h => ?_, fun h => ?_, fun h => ?_, fun h => ?_, fun h => ?_⟩ <;>
      simp [transformCompany, jsOr, h]
  · intro p
    refine ⟨fun h => ?_, fun h => ?_, fun h => ?_, fun h => ?_, fun h => ?_⟩ <;>
      simp [transformIndividual, jsOr, h]

/-- C5 witness: a company and an individual entry with every optional
field absent map to single records carrying the documented fallbacks. -/
theorem C5_witness :
    (companySuccessResults (some [blankCompany])).length = 1
    ∧ (personSuccessResults (some [blankIndividual])).length = 1
    ∧ (transformCompany blankCompany).linkedin_url = "#"
    ∧ (transformCompany blankCompany).company_info.industry = "Unknown"
    ∧ (transformCompany blankCompany).recent_news = []
    ∧ (transformCompany blankCompany).data_sources = []
    ∧ (transformIndividual blankIndividual).title = "Business Executive"
    ∧ (transformIndividual blankIndividual).company = "Various"
    ∧ (transformIndividual blankIndividual).estimated_net_worth = "Confidential"
    ∧ (transformIndividual blankIndividual).linkedin_url = "#"
    ∧ (transformIndividual blankIndividual).data_sources = [] :=
  ⟨C5_transformers_total_and_length_preserving.1 [blankCompany],
   C5_transformers_total_and_length_preserving.2.1 [blankIndividual],
   (C5_transformers_total_and_length_preserving.2.2.1 blankCompany).1 rfl,
   (C5_transformers_total_and_length_preserving.2.2.1 blankCompany).2.1 rfl,
   (C5_transformers_total_and_length_preserving.2.2.1 blankCompany).2.2.2.2.1 rfl,
   (C5_transformers_total_and_length_preserving.2.2.1 blankCompany).2.2.2.2.2 rfl,
   (C5_transformers_total_and_length_preserving.2.2.2 blankIndividual).1 rfl,
   (C5_transformers_total_and_length_preserving.2.2.2 blankIndividual).2.1 rfl,
   (C5_transformers_total_and_length_preserving.2.2.2 blankIndividual).2.2.1 rfl,
   (C5_transformers_total_and_length_preserving.2.2.2 blankIndividual).2.2.2.1 rfl,
   (C5_transformers_total_and_length_preserving.2.2.2 blankIndividual).2.2.2.2 rfl⟩

/-- C6: a query that is empty after trimming is rejected synchronously —
no request, the lane's validation error set — and any other query issues
exactly one request carrying the untrimmed query text, in both search
lanes. -/
theorem C6_empty_query_no_request :
    ∀ query : String,
      (jsTrim query = "" →
        handleCompanySearchSubmit query =
          { request := none, validationError := some "Please enter a company name" }
        ∧ handlePersonSearchSubmit query =
          { request := none, validationError := some "Please enter a person name" })
      ∧ (jsTrim query ≠ "" →
        handleCompanySearchSubmit query =
          { request := some
              { url := "http://127.0.0.1:5000/api/opportunities/search"
                query := query
                search_type := "company" }
            validationError := none }
        ∧ handlePersonSearchSubmit query =
          { request := some
              { url := "http://127.0.0.1:5000/api/opportunities/search"
                query := query
                search_type := "person" }
            validationError := none }) := by
  intro query
  constructor
  · intro h
    exact ⟨by simp [handleCompanySearchSubmit, h], by simp [handlePersonSearchSubmit, h]⟩
  · intro h
    exact ⟨by simp [handleCompanySearchSubmit, h], by simp [handlePersonSearchSubmit, h]⟩

/-- C6 witness: a whitespace-only query is rejected with the validation
error and no request; the query `"Acme"` issues the one request. -/
theorem C6_witness :
    (handleCompanySearchSubmit "   " =
        { request := none, validationError := some "Please enter a company name" }
      ∧ handlePersonSearchSubmit "   " =
        { request := none, validationError := some "Please enter a person name" })
    ∧ (handleCompanySearchSubmit "Acme" =
        { request := some
            { url := "http://127.0.0.1:5000/api/opportunities/search"
              query := "Acme"
              search_type := "company" }
          validationError := none }
      ∧ handlePersonSearchSubmit "Acme" =
        { request := some
            { url := "http://127.0.0.1:5000/api/opportunities/search"
              query := "Acme"
              search_type := "person" }
          validationError := none }) :=
  ⟨(C6_empty_query_no_request "   ").1 (by decide),
   (C6_empty_query_no_request "Acme").2 (by decide)⟩

/-- C7: for every record, the presenter renders the distinct no-data
branch iff the record's `edgar_data` is absent or null; otherwise it
renders exactly the four statement tabs income, balance, cashflow,
equity, with exactly one active — the current `activeTab`, whose initial
(default) value is income. -/
theorem C7_presenter_branches :
    ∀ (r : DisplayRecord) (t : Tab),
      ((FinancialStatementsView (some r) t).isNoData = true ↔ r.edgar_data = none)
      ∧ (∀ (nm fd : String) (tabs : List TabButton) (content : List TableRow),
          FinancialStatementsView (some r) t = FinancialView.statements nm fd tabs content →
          tabs.map TabButton.tab = [Tab.income, Tab.balance, Tab.cashflow, Tab.equity]
          ∧ (tabs.filter TabButton.active).map TabButton.tab = [t])
      ∧ initialActiveTab = Tab.income := by
  intro r t
  refine ⟨?_, ?_, rfl⟩
  · cases hr : r.edgar_data <;>
      simp [FinancialStatementsView, FinancialView.isNoData, hr]
  · intro nm fd tabs content h
    cases hr : r.edgar_data with
    | none => simp [FinancialStatementsView, hr] at h
    | some ed =>
        simp only [FinancialStatementsView, hr] at h
        cases h
        cases t <;> exact ⟨by decide, by decide⟩

/-- C7 witness: a concrete record with filing data, viewed at the default
tab, renders the four tabs with income (the default) as the one active
tab. -/
theorem C7_witness :
    sampleTabs.map TabButton.tab = [Tab.income, Tab.balance, Tab.cashflow, Tab.equity]
    ∧ (sampleTabs.filter TabButton.active).map TabButton.tab = [Tab.income] :=
  (C7_presenter_branches sampleFilingRecord Tab.income).2.1 "Acme Corp" "N/A" sampleTabs
    (tabContent sampleFiling Tab.income) (by decide)

/-- C8: the report renderer splits the response text on line breaks,
drops every line that is blank after trimming, renders every line
beginning with the bullet marker as a list item and every other line as a
paragraph, preserving line order; in particular
`"• Point one\nSecond paragraph"` yields the bullet item
`"• Point one"` followed by the paragraph `"Second paragraph"`. -/
theorem C8_report_line_rendering :
    renderLlmResponse "• Point one\nSecond paragraph" =
      [ReportLine.bullet "• Point one", ReportLine.para "Second paragraph"]
    ∧ ∀ llm_response : String,
        renderLlmResponse llm_response =
          ((jsSplitNewlines llm_response).filter
              (fun line => decide (jsTrim line ≠ ""))).map
            (fun line =>
              if jsStartsWithChar line '•' then ReportLine.bullet line
              else ReportLine.para line) :=
  ⟨by decide, fun _ => reduceOption_map_classify _⟩

/-- C9: the expansion toggle keeps at most one company row expanded and
is involutive — toggling an expanded row collapses to the no-row-expanded
state, and expanding row `a` (from any state where `a` is not expanded)
and then a distinct row `b` leaves exactly `b` expanded; over any result
list, at most one rendered row is expanded. -/
theorem C9_expansion_toggle :
    (∀ index : Nat, toggleExpandedIndex (some index) index = none)
    ∧ (∀ (st : Option Nat) (a b : Nat), st ≠ some a → a ≠ b →
        toggleExpandedIndex (toggleExpandedIndex st a) b = some b)
    ∧ (∀ (results : List DisplayRecord) (eIdx : Option Nat),
        ((renderCompanyRows results eIdx).filter CompanyRow.isExpanded).length ≤ 1) := by
  refine ⟨?_, ?_, ?_⟩
  · intro index
    simp [toggleExpandedIndex]
  · intro st a b h1 h2
    have ha : toggleExpandedIndex st a = some a := by
      simp [toggleExpandedIndex, h1]
    rw [ha]
    simp [toggleExpandedIndex, h2]
  · intro results eIdx
    exact expandedCount_le_one _ 0 eIdx

/-- C9 witness: toggling the expanded row 3 collapses it; expanding row 0
from the collapsed state and then row 1 leaves row 1 expanded; a concrete
render has at most one expanded row. -/
theorem C9_witness :
    toggleExpandedIndex (some 3) 3 = none
    ∧ toggleExpandedIndex (toggleExpandedIndex none 0) 1 = some 1
    ∧ ((renderCompanyRows (companySuccessResults (some [acmeCorp])) (some 0)).filter
        CompanyRow.isExpanded).length ≤ 1 :=
  ⟨C9_expansion_toggle.1 3,
   C9_expansion_toggle.2.1 none 0 1 (by decide) (by decide),
   C9_expansion_toggle.2.2 (companySuccessResults (some [acmeCorp])) (some 0)⟩

/-- C10: for every company record produced by the transformer, the
row-level `hasErrors` indicator is shown iff at least one of the three
status fields is non-null — the keyword classification of
`renderStatusMessage` plays no role, so a warning-classified status such
as `"LinkedIn data unavailable"` still shows the indicator. -/
theorem C10_error_indicator_iff_status_present :
    (∀ company : CompanyInput,
      hasErrors (transformCompany company) = true ↔
        ((transformCompany company).edgar_status ≠ none
          ∨ (transformCompany company).linkedin_status ≠ none
          ∨ (transformCompany company).companyresearch_status ≠ none))
    ∧ hasErrors (transformCompany warningOnlyCompany) = true
    ∧ isErrorStatus "LinkedIn data unavailable" = false := by
  refine ⟨?_, by decide, by decide⟩
  intro company
  simp only [hasErrors, transformCompany, Bool.or_eq_true, jsTruthy_orNull, ne_eq]
  tauto

end BizIP
